import Mathlib

/-!
Shallow embedding of `src/matrix-hm.js` (the `MatrixHeightMap` widget): the
value normalizer, the matrix of cells, `setData` / `setValue` with the
change-callback path, and the Z-axis tick generation.  Rendering state
(THREE.js scene graph, cameras, textures, event listeners) carries no grid
data and is omitted.  Machine floats are modelled by `ℚ`; the JS non-finite
values (`Infinity`, `-Infinity`, `NaN`) are modelled explicitly where the
unguarded division by zero matters.
-/

namespace MatrixHM

/-- JS exception values the embedded code can raise or swallow: the implicit
`TypeError` from reading a property of `undefined` (out-of-bounds matrix
access), and an arbitrary exception thrown by a user-supplied callback. -/
inductive JSError where
| typeError : JSError
| userError : JSError
deriving DecidableEq

/-- Widget configuration fixed at construction: fields `minZ`, `maxZ`,
`XAxisNames`, `YAxisNames` of the `MatrixHeightMap` constructor
(matrix-hm.js lines 37–49). -/
structure Config where
  minZ : ℚ
  maxZ : ℚ
  XAxisNames : List String
  YAxisNames : List String
deriving DecidableEq

/-- Embeds `this.mX = this.XAxisNames.length` (line 48). -/
def Config.mX (cfg : Config) : ℕ := cfg.XAxisNames.length

/-- Embeds `this.mY = this.YAxisNames.length` (line 49). -/
def Config.mY (cfg : Config) : ℕ := cfg.YAxisNames.length

/-- Embeds the axis defaulting of the constructor (lines 40–46): a missing
`axis` parameter defaults to X names A–E and Y names 1–5. -/
def mkConfig (minZ maxZ : ℚ) (axis : Option (List String × List String)) : Config :=
  match axis with
  | some a => ⟨minZ, maxZ, a.1, a.2⟩
  | none => ⟨minZ, maxZ, ["A", "B", "C", "D", "E"], ["1", "2", "3", "4", "5"]⟩

/-- One matrix cell (lines 175–178): the normalized `value` and the derived
`color`, represented by its hue component — the source stores the strings
`hsl(h, 100%, 50%)` and `hsl(h, 75%, 75%)`, both built from the same hue
`h`. -/
structure Cell where
  value : ℚ
  color : ℚ
deriving DecidableEq

/-- Hue of a cell color: `128 - (value * 128)` (lines 157–158). -/
def hueOf (v : ℚ) : ℚ := 128 - v * 128

/-- Embeds `_convertValueForMatrix` (lines 141–143): normalized value to the
external domain. -/
def convertValueForMatrix (cfg : Config) (value : ℚ) : ℚ :=
  value * (cfg.maxZ - cfg.minZ) + cfg.minZ

/-- Embeds `_convertValueFromMatrix` (lines 148–150): external value to the
normalized domain.  Faithful to the JS source whenever `maxZ - minZ ≠ 0`;
the degenerate zero-divisor case is modelled JS-faithfully by
`convertValueFromMatrixJS` below. -/
def convertValueFromMatrix (cfg : Config) (value : ℚ) : ℚ :=
  (value - cfg.minZ) / (cfg.maxZ - cfg.minZ)

/-- Embeds the sequential clamping used by `_initMatrix` and `_setValue`
(lines 180–185 and 199–204): first `if (v < 0) v = 0`, then
`if (v > 1) v = 1`. -/
def clamp01 (v : ℚ) : ℚ := if v < 0 then 0 else if v > 1 then 1 else v

/-- JS `Math.round`: round half toward positive infinity. -/
def jsRound (q : ℚ) : ℤ := ⌊q + 1 / 2⌋

/-- Rounding to 5 decimal digits, `Math.round(v * 100000) / 100000`
(lines 225 and 229). -/
def round5 (q : ℚ) : ℚ := (jsRound (q * 100000) : ℚ) / 100000

/-- JS array indexing `l[i]`: `undefined` (here `none`) when `i` is negative
or past the end. -/
def idx? {α : Type} (l : List α) (i : ℤ) : Option α :=
  if i < 0 then none else l.get? i.toNat

/-- Cell lookup `this.matrix[y][x]` with integer coordinates. -/
def cellAt? (m : List (List Cell)) (x y : ℤ) : Option Cell :=
  (idx? m y).bind fun row => idx? row x

/-- Cell lookup with natural-number coordinates (row first, as in
`matrix[y][x]`). -/
def cellAt2? (m : List (List Cell)) (y x : ℕ) : Option Cell :=
  (m.get? y).bind fun row => row.get? x

/-- Observation helper: the stored normalized value at `(x, y)`, defaulting
to 0 when the cell does not exist. -/
def valueAt (m : List (List Cell)) (x y : ℤ) : ℚ :=
  ((cellAt? m x y).map Cell.value).getD 0

/-- Observation helper: the stored color hue at `(x, y)`, defaulting to 0
when the cell does not exist. -/
def colorAt (m : List (List Cell)) (x y : ℤ) : ℚ :=
  ((cellAt? m x y).map Cell.color).getD 0

/-- Value chosen for cell `(x, y)` by `_initMatrix` (line 176): the converted
initial datum when present, else 0 — missing data object, missing row and
missing cell are all caught by the same `!= null` checks. -/
def initCellValue (cfg : Config) (initialData : Option (List (List ℚ))) (y x : ℕ) : ℚ :=
  match initialData with
  | none => 0
  | some d =>
    match (d.get? y).bind fun row => row.get? x with
    | none => 0
    | some w => convertValueFromMatrix cfg w

/-- Embeds `_initMatrix` (lines 169–190): an `mY × mX` matrix of cells, each
initial value converted, clamped to `[0, 1]`, and colored by
`_setMatrixValueColor`. -/
def initMatrix (cfg : Config) (initialData : Option (List (List ℚ))) : List (List Cell) :=
  (List.range cfg.mY).map fun y =>
    (List.range cfg.mX).map fun x =>
      ⟨clamp01 (initCellValue cfg initialData y x),
       hueOf (clamp01 (initCellValue cfg initialData y x))⟩

/-- Embeds the public `setData` (lines 505–514): `_initMatrix` plus chart
recomputation, of which only the matrix is data.  The source performs no
dimension check, so `setData` never raises. -/
def setData (cfg : Config) (matrixData : Option (List (List ℚ))) : List (List Cell) :=
  initMatrix cfg matrixData

/-- Sequencing of JS loop iterations each of which may throw: the whole
computation is `none` as soon as one entry is `none`. -/
def optList {α : Type} : List (Option α) → Option (List α)
  | [] => some []
  | none :: _ => none
  | some a :: rest => (optList rest).map fun l => a :: l

/-- The full external-domain grid built for the change callback
(lines 220–228): every cell read, converted back to the external domain and
rounded to 5 decimals.  A `none` result models the `TypeError` thrown inside
the surrounding `try` block when a matrix access yields `undefined`. -/
def externalGrid? (cfg : Config) (m : List (List Cell)) : Option (List (List ℚ)) :=
  optList <| (List.range cfg.mY).map fun y =>
    optList <| (List.range cfg.mX).map fun x =>
      (cellAt2? m y x).map fun c => round5 (convertValueForMatrix cfg c.value)

/-- Arguments of one invocation of the `onChange` callback (line 229). -/
structure CallbackCall where
  x : ℤ
  y : ℤ
  value : ℚ
  data : List (List ℚ)
deriving DecidableEq

/-- Outcome of a `_setValue` call: the matrix afterwards, the callback
invocations made, and whether the call threw — a `TypeError` escaping to the
caller, in which case the matrix is untouched because the throw happens on
the initial `this.matrix[y][x]` access, before any write. -/
structure SetValueOutcome where
  matrix : List (List Cell)
  calls : List CallbackCall
  threw : Bool
deriving DecidableEq

/-- Mutation part of `_setValue` (lines 195–206): read the cell (`none`
models the implicit `TypeError` when `(x, y)` is out of bounds, reached
before any write), clamp the new value, store it, and recompute the cell's
color. -/
def setValueCore (m : List (List Cell)) (x y : ℤ) (value : ℚ) :
    Option (List (List Cell)) :=
  match idx? m y with
  | none => none
  | some row =>
    match idx? row x with
    | none => none
    | some _ =>
      some (m.set y.toNat (row.set x.toNat ⟨clamp01 value, hueOf (clamp01 value)⟩))

/-- Embeds the `catch (ex) {}` of `_setValue` (lines 230–231): the callback
was invoked, and whether it returned or threw, the exception is discarded —
both results collapse to the same invocation record. -/
def swallowResult (r : Except JSError Unit) (call : CallbackCall) : List CallbackCall :=
  match r with
  | Except.ok _ => [call]
  | Except.error _ => [call]

/-- Callback part of `_setValue` (lines 218–232), as the list of invocations
made.  The block is wrapped in a try/catch: a `TypeError` while building the
data grid (`externalGrid? = none`) means the callback is never reached, and
an exception thrown by the callback itself is discarded by `swallowResult`.
The `var`-scoped loop counters `x` and `y` of the data-building loop
(lines 222–224) overwrite the function parameters, so in the invocation on
line 229 they hold `mX` and `mY`; the third argument converts the raw,
unclamped `value` parameter. -/
def notifyCalls (cfg : Config) (cb : Option (CallbackCall → Except JSError Unit))
    (m1 : List (List Cell)) (value : ℚ) : List CallbackCall :=
  match cb with
  | none => []
  | some f =>
    match externalGrid? cfg m1 with
    | none => []
    | some dataGrid =>
      swallowResult
        (f ⟨(cfg.mX : ℤ), (cfg.mY : ℤ),
            round5 (convertValueForMatrix cfg value), dataGrid⟩)
        ⟨(cfg.mX : ℤ), (cfg.mY : ℤ),
         round5 (convertValueForMatrix cfg value), dataGrid⟩

/-- Embeds `_setValue` (lines 195–233).  Scene-graph updates (pivot
positions, geometry vertices — lines 208–216) carry no grid data and are
omitted. -/
def setValueAux (cfg : Config) (m : List (List Cell))
    (cb : Option (CallbackCall → Except JSError Unit)) (x y : ℤ) (value : ℚ) :
    SetValueOutcome :=
  match setValueCore m x y value with
  | none => ⟨m, [], true⟩
  | some m1 => ⟨m1, notifyCalls cfg cb m1 value, false⟩

/-- Embeds the public `setValue` (lines 522–525): convert the external value
to the normalized domain and forward to `_setValue`; the trailing
`_updateVertexColors` is rendering only. -/
def setValue (cfg : Config) (m : List (List Cell))
    (cb : Option (CallbackCall → Except JSError Unit)) (x y : ℤ) (value : ℚ) :
    SetValueOutcome :=
  setValueAux cfg m cb x y (convertValueFromMatrix cfg value)

/-- Embeds `var increment = Math.round((max - min) / resolution)` with
`resolution = 10` (lines 340–342 of `_makeZGridLine`): the Z tick decrement
is the rounded — not exact — tenth of the range. -/
def zIncrement (cfg : Config) : ℚ := (jsRound ((cfg.maxZ - cfg.minZ) / 10) : ℚ)

/-- Embeds the tick-value loop of `_makeZGridLine` (lines 344–348): eleven
values starting at `max`, each one `increment` below the previous. -/
def zAxisValues (cfg : Config) : List ℚ :=
  (List.range 11).map fun i => cfg.maxZ - (i : ℚ) * zIncrement cfg

/-- JS number values reachable in `_convertValueFromMatrix` when the divisor
may be zero: finite values plus `Infinity`, `-Infinity` and `NaN`. -/
inductive JSVal where
| num : ℚ → JSVal
| posInf : JSVal
| negInf : JSVal
| nan : JSVal
deriving DecidableEq

/-- JS division `a / 0` for a finite numerator `a`. -/
def jsDivZero (a : ℚ) : JSVal :=
  if 0 < a then JSVal.posInf else if a < 0 then JSVal.negInf else JSVal.nan

/-- Embeds `_convertValueFromMatrix` (lines 148–150) under full JS division
semantics, including the unguarded zero-divisor case `min == max`. -/
def convertValueFromMatrixJS (minZ maxZ value : ℚ) : JSVal :=
  if maxZ - minZ = 0 then jsDivZero (value - minZ)
  else JSVal.num ((value - minZ) / (maxZ - minZ))

/-- The clamping of `_setValue` (lines 199–204) under JS comparison
semantics: `Infinity > 1` clamps to 1, `-Infinity < 0` clamps to 0, and both
comparisons are false on `NaN`, which is therefore stored unchanged. -/
def clampJS : JSVal → JSVal
  | JSVal.num q => JSVal.num (clamp01 q)
  | JSVal.posInf => JSVal.num 1
  | JSVal.negInf => JSVal.num 0
  | JSVal.nan => JSVal.nan

/-- Dimension invariant maintained by `_initMatrix`: `mY` rows of `mX`
cells each. -/
def WellFormed (cfg : Config) (m : List (List Cell)) : Prop :=
  m.length = cfg.mY ∧ ∀ row ∈ m, row.length = cfg.mX

/-- The 2×2, range [0, 100] configuration of the spec scenarios. -/
def cfg2x2 : Config := mkConfig 0 100 (some (["A", "B"], ["1", "2"]))

/-- A 1×1, range [0, 100] configuration. -/
def cfg1x1 : Config := mkConfig 0 100 (some (["A"], ["1"]))

/-- Default-axis (5×5) configuration with range [0, 100]. -/
def cfg0100 : Config := mkConfig 0 100 none

/-- The initial matrix of the 2×2 scenario: no initial data, all cells 0. -/
def m2x2 : List (List Cell) := setData cfg2x2 none

/-- A user callback that returns normally. -/
def cbOk : CallbackCall → Except JSError Unit := fun _ => Except.ok ()

/-- A user callback that throws. -/
def cbThrow : CallbackCall → Except JSError Unit :=
  fun _ => Except.error JSError.userError

theorem clamp01_nonneg (v : ℚ) : 0 ≤ clamp01 v := by
  unfold clamp01
  split_ifs with h1 h2
  · exact le_refl 0
  · norm_num
  · exact le_of_not_lt h1

theorem clamp01_le_one (v : ℚ) : clamp01 v ≤ 1 := by
  unfold clamp01
  split_ifs with h1 h2
  · norm_num
  · exact le_refl 1
  · exact le_of_not_lt h2

theorem clamp01_of_mem (v : ℚ) (h0 : 0 ≤ v) (h1 : v ≤ 1) : clamp01 v = v := by
  unfold clamp01
  split_ifs with ha hb
  · linarith
  · linarith
  · rfl

theorem optList_map_eq_some {α β : Type} (l : List α) (f : α → Option β) (g : α → β)
    (h : ∀ a ∈ l, f a = some (g a)) :
    optList (l.map f) = some (l.map g) := by
  induction l with
  | nil => rfl
  | cons a t ih =>
    simp only [List.map_cons]
    rw [h a (by simp)]
    simp only [optList]
    rw [ih (fun b hb => h b (by simp [hb]))]
    rfl

theorem map_range_length_eq_map {α β : Type} (l : List α) (F : ℕ → β) (f : α → β)
    (h : ∀ i a, l.get? i = some a → F i = f a) :
    (List.range l.length).map F = l.map f := by
  rw [List.ext_get?_iff]
  intro n
  rcases lt_or_ge n l.length with hn | hn
  · obtain ⟨a, ha⟩ : ∃ a, l.get? n = some a := by
      rw [List.get?_eq_get hn]
      exact ⟨_, rfl⟩
    rw [List.get?_map, List.get?_map, List.get?_range hn, ha, Option.map_some',
      Option.map_some', h n a ha]
  · rw [List.get?_map, List.get?_map, List.get?_eq_none.mpr hn,
      List.get?_eq_none.mpr (by simpa using hn)]
    rfl

theorem setValueCore_of_isSome (m : List (List Cell)) (x y : ℤ) (v : ℚ)
    (h : (cellAt? m x y).isSome) :
    ∃ row, idx? m y = some row ∧ (idx? row x).isSome ∧
      setValueCore m x y v =
        some (m.set y.toNat (row.set x.toNat ⟨clamp01 v, hueOf (clamp01 v)⟩)) := by
  unfold cellAt? at h
  cases hy : idx? m y with
  | none => rw [hy] at h; simp at h
  | some row =>
    rw [hy] at h
    simp only [Option.some_bind] at h
    cases hx : idx? row x with
    | none => rw [hx] at h; simp at h
    | some c =>
      refine ⟨row, rfl, by rw [hx]; rfl, ?_⟩
      simp only [setValueCore, hy, hx]

theorem cellAt_set_self (m : List (List Cell)) (x y : ℤ) (row : List Cell) (c : Cell)
    (hy : idx? m y = some row) (hx : (idx? row x).isSome) :
    cellAt? (m.set y.toNat (row.set x.toNat c)) x y = some c := by
  have hynb : ¬ y < 0 := by
    intro hneg
    unfold idx? at hy
    rw [if_pos hneg] at hy
    cases hy
  have hget : m.get? y.toNat = some row := by
    unfold idx? at hy
    rwa [if_neg hynb] at hy
  have hylt : y.toNat < m.length := by
    by_contra hc
    rw [List.get?_eq_none.mpr (le_of_not_lt hc)] at hget
    cases hget
  have hxnb : ¬ x < 0 := by
    intro hneg
    unfold idx? at hx
    rw [if_pos hneg] at hx
    cases hx
  have hxget : (row.get? x.toNat).isSome := by
    unfold idx? at hx
    rwa [if_neg hxnb] at hx
  have hxlt : x.toNat < row.length := by
    by_contra hc
    rw [List.get?_eq_none.mpr (le_of_not_lt hc)] at hxget
    cases hxget
  have h1 : (m.set y.toNat (row.set x.toNat c)).get? y.toNat =
      some (row.set x.toNat c) := by
    rw [List.get?_eq_getElem?]
    exact List.getElem?_set_eq_of_lt _ hylt
  have h2 : (row.set x.toNat c).get? x.toNat = some c := by
    rw [List.get?_eq_getElem?]
    exact List.getElem?_set_eq_of_lt _ hxlt
  unfold cellAt? idx?
  rw [if_neg hynb, h1]
  simp only [Option.some_bind]
  rw [if_neg hxnb, h2]

theorem swallowResult_eq (r : Except JSError Unit) (call : CallbackCall) :
    swallowResult r call = [call] := by
  cases r <;> rfl

theorem notifyCalls_indep (cfg : Config) (m1 : List (List Cell)) (value : ℚ)
    (f g : CallbackCall → Except JSError Unit) :
    notifyCalls cfg (some f) m1 value = notifyCalls cfg (some g) m1 value := by
  unfold notifyCalls
  cases hE : externalGrid? cfg m1 with
  | none => rfl
  | some dg => simp only [swallowResult_eq]

/-- C10: a construction config that omits the axis field defaults to X names
A–E and Y names 1–5, so the grid is created with width 5 and height 5. -/
theorem C10_default_axes :
    cfg0100.XAxisNames = ["A", "B", "C", "D", "E"] ∧
    cfg0100.YAxisNames = ["1", "2", "3", "4", "5"] ∧
    cfg0100.mX = 5 ∧ cfg0100.mY = 5 ∧
    (setData cfg0100 none).length = 5 ∧
    (setData cfg0100 none).map List.length = [5, 5, 5, 5, 5] := by
  norm_num [setData, initMatrix, cfg0100, mkConfig, Config.mX, Config.mY, List.range_succ]

/-- C1: evaluating `setValue(0, 1, 50)` on the 2×2, [0,100] widget.  The grid
does store external 50 at row 1, column 0, and the callback fires exactly
once with external value 50 and the full grid — but its first two arguments
are `mX = 2` and `mY = 2`, not the changed coordinates `(0, 1)`: the
`var`-scoped counters of the data-building loop overwrite the `x` and `y`
parameters before the invocation on line 229, contradicting the
constructor's own documentation of `onChange(x, y, value, data)`. -/
theorem C1_callback_coordinates_bug :
    (setValue cfg2x2 m2x2 (some cbOk) 0 1 50).calls =
      [⟨2, 2, 50, [[0, 0], [50, 0]]⟩] ∧
    (setValue cfg2x2 m2x2 (some cbOk) 0 1 50).calls.length = 1 ∧
    externalGrid? cfg2x2 (setValue cfg2x2 m2x2 (some cbOk) 0 1 50).matrix =
      some [[0, 0], [50, 0]] ∧
    ((2 : ℤ), (2 : ℤ)) ≠ ((0 : ℤ), (1 : ℤ)) := by
  norm_num [setValue, setValueAux, setValueCore, notifyCalls, swallowResult,
    externalGrid?, optList, cellAt2?, idx?, convertValueFromMatrix,
    convertValueForMatrix, round5, jsRound, clamp01, hueOf, m2x2, setData, initMatrix,
    initCellValue, cfg2x2, mkConfig, Config.mX, Config.mY, cbOk, List.range_succ]

/-- C5 counterexample: `setData` with a single-row payload on the 2×2 widget
raises nothing and replaces the whole grid — the stored grid changes, the
missing row being filled with zeros. -/
theorem C5_mismatched_setData_counterexample :
    setData cfg2x2 (some [[50, 60]]) ≠ setData cfg2x2 (some [[10, 20], [30, 40]]) ∧
    externalGrid? cfg2x2 (setData cfg2x2 (some [[50, 60]])) =
      some [[50, 60], [0, 0]] := by
  norm_num [externalGrid?, optList, cellAt2?, convertValueFromMatrix,
    convertValueForMatrix, round5, jsRound, clamp01, hueOf, setData, initMatrix,
    initCellValue, cfg2x2, mkConfig, Config.mX, Config.mY, List.range_succ]

/-- C4 counterexample: a dimension-matching input whose value exceeds `max`
is clamped, so the rebuilt external grid differs from the input far beyond
rounding tolerance: input 150 on the 1×1, [0,100] widget reads back as
100. -/
theorem C4_clamped_input_counterexample :
    cfg1x1.mX = 1 ∧ cfg1x1.mY = 1 ∧
    ([[(150 : ℚ)]] : List (List ℚ)).map List.length = [1] ∧
    externalGrid? cfg1x1 (setData cfg1x1 (some [[150]])) = some [[100]] ∧
    some [[(100 : ℚ)]] ≠ some [[(150 : ℚ)]] := by
  norm_num [externalGrid?, optList, cellAt2?, convertValueFromMatrix,
    convertValueForMatrix, round5, jsRound, clamp01, hueOf, setData, initMatrix,
    initCellValue, cfg1x1, mkConfig, Config.mX, Config.mY, List.range_succ]

/-- C9 counterexample: with `min = 0`, `max = 5` the rounded increment is 1,
so the ticks run 5, 4, …, −5: the last tick is −5, not `min = 0`, and the
decrement is 1, not `(max − min) / 10 = 1/2`. -/
theorem C9_rounded_increment_counterexample :
    zAxisValues (mkConfig 0 5 none) = [5, 4, 3, 2, 1, 0, -1, -2, -3, -4, -5] ∧
    (zAxisValues (mkConfig 0 5 none)).getLast? = some (-5) ∧
    some ((-5 : ℚ)) ≠ some ((0 : ℚ)) ∧
    zIncrement (mkConfig 0 5 none) = 1 ∧
    (1 : ℚ) ≠ (5 - 0) / 10 := by
  norm_num [zAxisValues, zIncrement, jsRound, mkConfig, List.range_succ]

/-- C7 counterexample: with `min == max == 0` the widget is constructed
without rejection, and `_convertValueFromMatrix` does perform its division
with a zero divisor: external 5 yields `Infinity` — which `_setValue`'s
clamping stores as normalized 1, not 0 — and external 0 yields `NaN`. -/
theorem C7_zero_divisor_counterexample :
    mkConfig 0 0 none = ⟨0, 0, ["A", "B", "C", "D", "E"], ["1", "2", "3", "4", "5"]⟩ ∧
    convertValueFromMatrixJS 0 0 5 = JSVal.posInf ∧
    clampJS (convertValueFromMatrixJS 0 0 5) = JSVal.num 1 ∧
    JSVal.num 1 ≠ JSVal.num 0 ∧
    convertValueFromMatrixJS 0 0 0 = JSVal.nan := by
  norm_num [mkConfig, convertValueFromMatrixJS, jsDivZero, clampJS, clamp01]

/-- C2: after `_setValue` completes at any in-bounds coordinate with any
proposed normalized value, the stored value of that cell lies in `[0, 1]`;
in particular, on the 2×2, [0,100] widget, `setValue(0, 1, 150)` stores
normalized 1. -/
theorem C2_clamping_invariant :
    (∀ (cfg : Config) (m : List (List Cell))
        (cb : Option (CallbackCall → Except JSError Unit)) (x y : ℤ) (value : ℚ),
        (cellAt? m x y).isSome →
        0 ≤ valueAt (setValueAux cfg m cb x y value).matrix x y ∧
        valueAt (setValueAux cfg m cb x y value).matrix x y ≤ 1) ∧
    valueAt (setValue cfg2x2 m2x2 none 0 1 150).matrix 0 1 = 1 := by
  constructor
  · intro cfg m cb x y value h
    obtain ⟨row, hy, hx, hcore⟩ := setValueCore_of_isSome m x y value h
    have hmat : (setValueAux cfg m cb x y value).matrix =
        m.set y.toNat (row.set x.toNat ⟨clamp01 value, hueOf (clamp01 value)⟩) := by
      simp only [setValueAux, hcore]
    rw [hmat]
    unfold valueAt
    rw [cellAt_set_self m x y row _ hy hx]
    exact ⟨clamp01_nonneg value, clamp01_le_one value⟩
  · norm_num [setValue, setValueAux, setValueCore, notifyCalls, valueAt, cellAt?, idx?,
      convertValueFromMatrix, clamp01, hueOf, m2x2, setData, initMatrix, initCellValue,
      cfg2x2, mkConfig, Config.mX, Config.mY, List.range_succ]

/-- C2 witness: the clamping invariant instantiated at the 2×2 widget,
coordinate (0, 0), proposed normalized value 17/2. -/
theorem C2_clamping_witness :
    0 ≤ valueAt (setValueAux cfg2x2 m2x2 none 0 0 (17 / 2)).matrix 0 0 ∧
    valueAt (setValueAux cfg2x2 m2x2 none 0 0 (17 / 2)).matrix 0 0 ≤ 1 :=
  C2_clamping_invariant.1 cfg2x2 m2x2 none 0 0 (17 / 2) (by
    norm_num [cellAt?, idx?, m2x2, setData, initMatrix, initCellValue, cfg2x2, mkConfig,
      Config.mX, Config.mY, List.range_succ])

/-- C3: for any configuration with `min < max` and any normalized value in
`[0, 1]`, converting to the external domain by `_convertValueForMatrix` and
back by `_convertValueFromMatrix` returns the value exactly (so in
particular within 5-decimal tolerance). -/
theorem C3_roundtrip (cfg : Config) (v : ℚ) (h : cfg.minZ < cfg.maxZ)
    (h0 : 0 ≤ v) (h1 : v ≤ 1) :
    convertValueFromMatrix cfg (convertValueForMatrix cfg v) = v := by
  have hne : cfg.maxZ - cfg.minZ ≠ 0 := sub_ne_zero.mpr (ne_of_gt h)
  unfold convertValueFromMatrix convertValueForMatrix
  field_simp

/-- C3 witness: the round trip at the default [0, 100] configuration and
normalized value 1/2. -/
theorem C3_roundtrip_witness :
    convertValueFromMatrix cfg0100 (convertValueForMatrix cfg0100 (1 / 2)) = 1 / 2 :=
  C3_roundtrip cfg0100 (1 / 2) (by norm_num [cfg0100, mkConfig]) (by norm_num)
    (by norm_num)


/-- C6: the outcome of `_setValue` is independent of the user callback's
behavior — an exception it throws is caught and discarded at the call site —
and at an in-bounds coordinate the call does not throw and the clamped value
and recomputed color remain committed to the grid. -/
theorem C6_callback_exception_swallowed (cfg : Config) (m : List (List Cell))
    (x y : ℤ) (value : ℚ) (f g : CallbackCall → Except JSError Unit)
    (h : (cellAt? m x y).isSome) :
    setValueAux cfg m (some f) x y value = setValueAux cfg m (some g) x y value ∧
    (setValueAux cfg m (some f) x y value).threw = false ∧
    valueAt (setValueAux cfg m (some f) x y value).matrix x y = clamp01 value ∧
    colorAt (setValueAux cfg m (some f) x y value).matrix x y = hueOf (clamp01 value) := by
  obtain ⟨row, hy, hx, hcore⟩ := setValueCore_of_isSome m x y value h
  have hout : ∀ cb, setValueAux cfg m cb x y value =
      ⟨m.set y.toNat (row.set x.toNat ⟨clamp01 value, hueOf (clamp01 value)⟩),
       notifyCalls cfg cb
         (m.set y.toNat (row.set x.toNat ⟨clamp01 value, hueOf (clamp01 value)⟩)) value,
       false⟩ := by
    intro cb
    simp only [setValueAux, hcore]
  refine ⟨?_, ?_, ?_, ?_⟩
  · rw [hout (some f), hout (some g), notifyCalls_indep]
  · rw [hout (some f)]
  · rw [hout (some f)]
    unfold valueAt
    rw [cellAt_set_self m x y row _ hy hx]
    rfl
  · rw [hout (some f)]
    unfold colorAt
    rw [cellAt_set_self m x y row _ hy hx]
    rfl

/-- C6 witness: concrete instantiation on the 2×2 widget with a throwing
callback against a normally returning one. -/
theorem C6_callback_exception_witness :
    setValueAux cfg2x2 m2x2 (some cbThrow) 0 0 (1 / 2) =
      setValueAux cfg2x2 m2x2 (some cbOk) 0 0 (1 / 2) ∧
    (setValueAux cfg2x2 m2x2 (some cbThrow) 0 0 (1 / 2)).threw = false ∧
    valueAt (setValueAux cfg2x2 m2x2 (some cbThrow) 0 0 (1 / 2)).matrix 0 0 =
      clamp01 (1 / 2) ∧
    colorAt (setValueAux cfg2x2 m2x2 (some cbThrow) 0 0 (1 / 2)).matrix 0 0 =
      hueOf (clamp01 (1 / 2)) :=
  C6_callback_exception_swallowed cfg2x2 m2x2 0 0 (1 / 2) cbThrow cbOk (by
    norm_num [cellAt?, idx?, m2x2, setData, initMatrix, initCellValue, cfg2x2, mkConfig,
      Config.mX, Config.mY, List.range_succ])

/-- C8: for every out-of-bounds coordinate, `setValue` consistently raises —
the implicit TypeError of the undefined `this.matrix[y][x]` access, reached
before any write — leaving every cell of the grid unchanged and invoking no
callback. -/
theorem C8_out_of_bounds_policy (cfg : Config) (m : List (List Cell))
    (cb : Option (CallbackCall → Except JSError Unit)) (x y : ℤ) (value : ℚ)
    (hwf : WellFormed cfg m)
    (hoob : x < 0 ∨ (cfg.mX : ℤ) ≤ x ∨ y < 0 ∨ (cfg.mY : ℤ) ≤ y) :
    setValue cfg m cb x y value = ⟨m, [], true⟩ := by
  have hcore : setValueCore m x y (convertValueFromMatrix cfg value) = none := by
    rcases hy : idx? m y with _ | row
    · simp only [setValueCore, hy]
    · have hynb : ¬ y < 0 := by
        intro hneg
        unfold idx? at hy
        rw [if_pos hneg] at hy
        cases hy
      have hget : m.get? y.toNat = some row := by
        unfold idx? at hy
        rwa [if_neg hynb] at hy
      have hylt : y.toNat < m.length := by
        by_contra hc
        rw [List.get?_eq_none.mpr (le_of_not_lt hc)] at hget
        cases hget
      have hrowlen : row.length = cfg.mX := hwf.2 row (List.get?_mem hget)
      have hx : idx? row x = none := by
        unfold idx?
        rcases hoob with h1 | h1 | h1 | h1
        · rw [if_pos h1]
        · rw [if_neg (by omega : ¬ x < 0)]
          apply List.get?_eq_none.mpr
          rw [hrowlen]
          omega
        · exact absurd h1 hynb
        · exfalso
          rw [hwf.1] at hylt
          omega
      simp only [setValueCore, hy, hx]
  simp only [setValue, setValueAux, hcore]

/-- C8 witness: concrete instantiation at column 5 of the 2×2 widget. -/
theorem C8_out_of_bounds_witness :
    setValue cfg2x2 m2x2 (some cbOk) 5 0 50 = ⟨m2x2, [], true⟩ :=
  C8_out_of_bounds_policy cfg2x2 m2x2 (some cbOk) 5 0 50
    (by
      constructor
      · norm_num [m2x2, setData, initMatrix, cfg2x2, mkConfig, Config.mX, Config.mY,
          List.range_succ]
      · intro r hr
        norm_num [m2x2, setData, initMatrix, cfg2x2, mkConfig, Config.mX, Config.mY,
          List.range_succ] at hr ⊢
        rcases hr with h | h <;> rw [h] <;> rfl)
    (by norm_num [cfg2x2, mkConfig, Config.mX])

theorem initMatrix_cellAt2 (cfg : Config) (dOpt : Option (List (List ℚ))) (y x : ℕ)
    (hy : y < cfg.mY) (hx : x < cfg.mX) :
    cellAt2? (initMatrix cfg dOpt) y x =
      some ⟨clamp01 (initCellValue cfg dOpt y x),
            hueOf (clamp01 (initCellValue cfg dOpt y x))⟩ := by
  unfold cellAt2? initMatrix
  rw [List.get?_map, List.get?_range hy, Option.map_some', Option.some_bind]
  rw [List.get?_map, List.get?_range hx, Option.map_some']

/-- C5 (amended): the source `setData` has no dimension guard and never
raises; a payload with too few rows yields a full replacement in which every
cell beyond the supplied rows holds normalized 0 (external `min`), with hue
128. -/
theorem C5_missing_rows_default_zero (cfg : Config) (d : List (List ℚ)) (y x : ℕ)
    (hy1 : d.length ≤ y) (hy2 : y < cfg.mY) (hx : x < cfg.mX) :
    cellAt2? (setData cfg (some d)) y x = some ⟨0, 128⟩ := by
  unfold setData
  rw [initMatrix_cellAt2 cfg (some d) y x hy2 hx]
  have hnone : d.get? y = none := List.get?_eq_none.mpr hy1
  simp only [initCellValue, hnone, Option.none_bind]
  norm_num [clamp01, hueOf]

/-- C5 witness: the single-row payload on the 2×2 widget leaves cell (0, 1)
at normalized 0. -/
theorem C5_missing_rows_zero_witness :
    cellAt2? (setData cfg2x2 (some [[50, 60]])) 1 0 = some ⟨0, 128⟩ :=
  C5_missing_rows_default_zero cfg2x2 [[50, 60]] 1 0 (by norm_num)
    (by norm_num [cfg2x2, mkConfig, Config.mY]) (by norm_num [cfg2x2, mkConfig, Config.mX])

/-- C9 (amended): the Z label strip holds exactly 11 tick values descending
from `max` in equal decrements of `Math.round((max − min) / 10)` — the
rounded, not exact, tenth of the range — so the first tick is `max`, and the
last tick equals `min` exactly when ten times the rounded increment covers
the whole range. -/
theorem C9_z_ticks (cfg : Config) (h : cfg.minZ < cfg.maxZ) :
    zAxisValues cfg =
      [cfg.maxZ, cfg.maxZ - zIncrement cfg, cfg.maxZ - 2 * zIncrement cfg,
       cfg.maxZ - 3 * zIncrement cfg, cfg.maxZ - 4 * zIncrement cfg,
       cfg.maxZ - 5 * zIncrement cfg, cfg.maxZ - 6 * zIncrement cfg,
       cfg.maxZ - 7 * zIncrement cfg, cfg.maxZ - 8 * zIncrement cfg,
       cfg.maxZ - 9 * zIncrement cfg, cfg.maxZ - 10 * zIncrement cfg] ∧
    (zAxisValues cfg).length = 11 ∧
    (zAxisValues cfg).head? = some cfg.maxZ ∧
    ((zAxisValues cfg).getLast? = some cfg.minZ ↔
      10 * zIncrement cfg = cfg.maxZ - cfg.minZ) := by
  have hrange : List.range 11 = [0, 1, 2, 3, 4, 5, 6, 7, 8, 9, 10] := by decide
  have hlist : zAxisValues cfg =
      [cfg.maxZ, cfg.maxZ - zIncrement cfg, cfg.maxZ - 2 * zIncrement cfg,
       cfg.maxZ - 3 * zIncrement cfg, cfg.maxZ - 4 * zIncrement cfg,
       cfg.maxZ - 5 * zIncrement cfg, cfg.maxZ - 6 * zIncrement cfg,
       cfg.maxZ - 7 * zIncrement cfg, cfg.maxZ - 8 * zIncrement cfg,
       cfg.maxZ - 9 * zIncrement cfg, cfg.maxZ - 10 * zIncrement cfg] := by
    unfold zAxisValues
    rw [hrange]
    norm_num
  refine ⟨hlist, ?_, ?_, ?_⟩
  · rw [hlist]
    rfl
  · rw [hlist]
    rfl
  · rw [hlist]
    simp only [List.getLast?]
    constructor
    · intro h1
      have h2 : cfg.maxZ - 10 * zIncrement cfg = cfg.minZ := by
        simpa using h1
      linarith
    · intro h1
      have h2 : cfg.maxZ - 10 * zIncrement cfg = cfg.minZ := by linarith
      simp [h2]

/-- C9 witness: the tick characterization at the default [0, 100]
configuration. -/
theorem C9_z_ticks_witness :
    zAxisValues cfg0100 =
      [cfg0100.maxZ, cfg0100.maxZ - zIncrement cfg0100,
       cfg0100.maxZ - 2 * zIncrement cfg0100, cfg0100.maxZ - 3 * zIncrement cfg0100,
       cfg0100.maxZ - 4 * zIncrement cfg0100, cfg0100.maxZ - 5 * zIncrement cfg0100,
       cfg0100.maxZ - 6 * zIncrement cfg0100, cfg0100.maxZ - 7 * zIncrement cfg0100,
       cfg0100.maxZ - 8 * zIncrement cfg0100, cfg0100.maxZ - 9 * zIncrement cfg0100,
       cfg0100.maxZ - 10 * zIncrement cfg0100] ∧
    (zAxisValues cfg0100).length = 11 ∧
    (zAxisValues cfg0100).head? = some cfg0100.maxZ ∧
    ((zAxisValues cfg0100).getLast? = some cfg0100.minZ ↔
      10 * zIncrement cfg0100 = cfg0100.maxZ - cfg0100.minZ) :=
  C9_z_ticks cfg0100 (by norm_num [cfg0100, mkConfig])


/-- C7 (amended): the degenerate range `min == max` is unguarded: the
division of `_convertValueFromMatrix` is performed with a zero divisor,
producing `Infinity`, `-Infinity` or `NaN` under JS semantics; `_setValue`
clamping then stores 1 for externals above `min`, 0 below, and `NaN` at
`min` itself — not normalized 0 across the board. -/
theorem C7_degenerate_range (minZ v : ℚ) :
    convertValueFromMatrixJS minZ minZ v =
      (if minZ < v then JSVal.posInf else if v < minZ then JSVal.negInf else JSVal.nan) ∧
    clampJS (convertValueFromMatrixJS minZ minZ v) =
      (if minZ < v then JSVal.num 1 else if v < minZ then JSVal.num 0 else JSVal.nan) := by
  have h1 : convertValueFromMatrixJS minZ minZ v =
      (if minZ < v then JSVal.posInf else if v < minZ then JSVal.negInf
       else JSVal.nan) := by
    unfold convertValueFromMatrixJS jsDivZero
    rw [if_pos (sub_self minZ)]
    by_cases ha : minZ < v
    · rw [if_pos (by linarith : (0 : ℚ) < v - minZ), if_pos ha]
    · by_cases hb : v < minZ
      · rw [if_neg (by linarith : ¬ (0 : ℚ) < v - minZ),
          if_pos (by linarith : v - minZ < 0), if_neg ha, if_pos hb]
      · rw [if_neg (by linarith : ¬ (0 : ℚ) < v - minZ),
          if_neg (by linarith : ¬ v - minZ < 0), if_neg ha, if_neg hb]
  refine ⟨h1, ?_⟩
  rw [h1]
  by_cases ha : minZ < v
  · rw [if_pos ha, if_pos ha]
    rfl
  · by_cases hb : v < minZ
    · rw [if_neg ha, if_pos hb, if_neg ha, if_pos hb]
      rfl
    · rw [if_neg ha, if_neg hb, if_neg ha, if_neg hb]
      rfl

/-- C4 (amended): for `min < max` and an input grid matching the configured
dimensions whose values all lie within `[min, max]`, `setData` followed by
the external-grid rebuild returns exactly the input with each entry rounded
to 5 decimals.  (Out-of-range input values are clamped and do not read
back — see the counterexample.) -/
theorem C4_setData_roundtrip (cfg : Config) (d : List (List ℚ))
    (hlt : cfg.minZ < cfg.maxZ)
    (hrows : d.length = cfg.mY)
    (hcols : ∀ row ∈ d, row.length = cfg.mX)
    (hrange : ∀ row ∈ d, ∀ v ∈ row, cfg.minZ ≤ v ∧ v ≤ cfg.maxZ) :
    externalGrid? cfg (setData cfg (some d)) = some (d.map (List.map round5)) := by
  have hne : cfg.maxZ - cfg.minZ ≠ 0 := sub_ne_zero.mpr (ne_of_gt hlt)
  have hcell : ∀ (y x : ℕ) (row : List ℚ) (v : ℚ),
      d.get? y = some row → row.get? x = some v →
      round5 (convertValueForMatrix cfg (clamp01 (initCellValue cfg (some d) y x))) =
        round5 v := by
    intro y x row v hyrow hxv
    obtain ⟨hv1, hv2⟩ := hrange row (List.get?_mem hyrow) v (List.get?_mem hxv)
    have hinit : initCellValue cfg (some d) y x = convertValueFromMatrix cfg v := by
      simp only [initCellValue, hyrow, Option.some_bind, hxv]
    rw [hinit]
    have hnorm0 : 0 ≤ convertValueFromMatrix cfg v := by
      unfold convertValueFromMatrix
      apply div_nonneg <;> linarith
    have hnorm1 : convertValueFromMatrix cfg v ≤ 1 := by
      unfold convertValueFromMatrix
      rw [div_le_one (by linarith : (0 : ℚ) < cfg.maxZ - cfg.minZ)]
      linarith
    rw [clamp01_of_mem _ hnorm0 hnorm1]
    have hback : convertValueForMatrix cfg (convertValueFromMatrix cfg v) = v := by
      unfold convertValueForMatrix convertValueFromMatrix
      field_simp
    rw [hback]
  have hinner : ∀ (y : ℕ) (row : List ℚ), d.get? y = some row → y < cfg.mY →
      optList ((List.range cfg.mX).map fun x =>
        (cellAt2? (initMatrix cfg (some d)) y x).map fun c =>
          round5 (convertValueForMatrix cfg c.value)) = some (row.map round5) := by
    intro y row hyrow hylt
    have hrowlen : row.length = cfg.mX := hcols row (List.get?_mem hyrow)
    have hstep : ∀ x ∈ List.range cfg.mX,
        ((cellAt2? (initMatrix cfg (some d)) y x).map fun c =>
          round5 (convertValueForMatrix cfg c.value)) =
        some (round5 ((row.get? x).getD 0)) := by
      intro x hxmem
      have hxlt : x < cfg.mX := List.mem_range.mp hxmem
      obtain ⟨v, hxv⟩ : ∃ v, row.get? x = some v := by
        rw [List.get?_eq_get (by rw [hrowlen]; exact hxlt)]
        exact ⟨_, rfl⟩
      rw [initMatrix_cellAt2 cfg (some d) y x hylt hxlt, Option.map_some', hxv]
      simp only [Option.getD_some]
      rw [hcell y x row v hyrow hxv]
    rw [optList_map_eq_some _ _ _ hstep]
    congr 1
    rw [← hrowlen]
    apply map_range_length_eq_map
    intro i a ha
    rw [ha]
    rfl
  unfold setData externalGrid?
  have houter : ∀ y ∈ List.range cfg.mY,
      (optList ((List.range cfg.mX).map fun x =>
        (cellAt2? (initMatrix cfg (some d)) y x).map fun c =>
          round5 (convertValueForMatrix cfg c.value))) =
      some (((d.get? y).getD []).map round5) := by
    intro y hymem
    have hylt : y < cfg.mY := List.mem_range.mp hymem
    obtain ⟨row, hyrow⟩ : ∃ row, d.get? y = some row := by
      rw [List.get?_eq_get (by rw [hrows]; exact hylt)]
      exact ⟨_, rfl⟩
    rw [hinner y row hyrow hylt, hyrow]
    rfl
  rw [optList_map_eq_some _ _ _ houter]
  congr 1
  rw [← hrows]
  apply map_range_length_eq_map
  intro i a ha
  rw [ha]
  rfl

/-- C4 witness: round trip of a concrete in-range grid on the 2×2 widget. -/
theorem C4_setData_roundtrip_witness :
    externalGrid? cfg2x2 (setData cfg2x2 (some [[10, 20], [30, 40]])) =
      some (([[10, 20], [30, 40]] : List (List ℚ)).map (List.map round5)) :=
  C4_setData_roundtrip cfg2x2 [[10, 20], [30, 40]]
    (by norm_num [cfg2x2, mkConfig])
    (by norm_num [cfg2x2, mkConfig, Config.mY])
    (by norm_num [cfg2x2, mkConfig, Config.mX])
    (by norm_num [cfg2x2, mkConfig])

/-- C7 witness: the degenerate-range characterization instantiated at
`min = max = 3` and external value 5. -/
theorem C7_degenerate_range_witness :
    convertValueFromMatrixJS 3 3 5 =
      (if (3 : ℚ) < 5 then JSVal.posInf else if (5 : ℚ) < 3 then JSVal.negInf
       else JSVal.nan) ∧
    clampJS (convertValueFromMatrixJS 3 3 5) =
      (if (3 : ℚ) < 5 then JSVal.num 1 else if (5 : ℚ) < 3 then JSVal.num 0
       else JSVal.nan) :=
  C7_degenerate_range 3 5

end MatrixHM
